import Mathlib

/-!
Shallow embedding of the `simplexlog` Go package (vpxyz/simplexlog),
a leveled-logging wrapper around the standard `log` package.

Modelling conventions:
* `io.Writer` destinations are abstract handles (`Writer`).
* A Go `*log.Logger` is a pointer into a heap of `StdLogger` objects;
  pointer aliasing is modelled faithfully because `SetDefault` assigns the
  same `*log.Logger` to several fields.
* `LogLevel` is a Go `uint`, modelled as `Nat`.
* Mutex operations guard only the `level` field and are elided in this
  single-threaded embedding; `Level()` is the plain field read.
* An emission is recorded as an event `(sink pointer, message)` appended to
  a trace; the standard logger's formatting of the line itself is external
  to the package and is not modelled.
* `log.Logger.Fatal`/`Panic` print and then terminate; termination is an
  explicit `Outcome` value returned alongside the state, so that the write
  preceding termination is visible in the final state.
-/

set_option autoImplicit false

namespace SimplexLog

/-- Abstract `io.Writer` destination handles: the two standard streams plus
arbitrary caller-supplied writers. -/
inductive Writer where
  | stdout : Writer
  | stderr : Writer
  | handle : Nat → Writer
deriving DecidableEq, Repr

/-- Flag constant `log.Ldate`. -/
def Ldate : Nat := 1

/-- Flag constant `log.Ltime`. -/
def Ltime : Nat := 2

/-- Flag constant `log.Lmicroseconds`. -/
def Lmicroseconds : Nat := 4

/-- Go `DefaultLogFlags = log.Ldate | log.Ltime | log.Lmicroseconds`. -/
def DefaultLogFlags : Nat := Ldate ||| Ltime ||| Lmicroseconds

/-- Log level constant `Critical` (`iota` = 0). -/
def Critical : Nat := 0

/-- Log level constant `Error` (1). -/
def Error : Nat := 1

/-- Log level constant `Warning` (2). -/
def Warning : Nat := 2

/-- Log level constant `Notice` (3). -/
def Notice : Nat := 3

/-- Log level constant `Info` (4). -/
def Info : Nat := 4

/-- Log level constant `Debug` (5). -/
def Debug : Nat := 5

/-- Log level constant `Trace` (6). -/
def Trace : Nat := 6

/-- Log level constant `All` (7). -/
def All : Nat := 7

/-- Level name constant `LevelCritical`. -/
def LevelCritical : String := "CRITICAL"

/-- Level name constant `LevelError`. -/
def LevelError : String := "ERROR"

/-- Level name constant `LevelWarning`. -/
def LevelWarning : String := "WARNING"

/-- Level name constant `LevelNotice`. -/
def LevelNotice : String := "NOTICE"

/-- Level name constant `LevelInfo`. -/
def LevelInfo : String := "INFO"

/-- Level name constant `LevelDebug`. -/
def LevelDebug : String := "DEBUG"

/-- Level name constant `LevelTrace`. -/
def LevelTrace : String := "TRACE"

/-- Level name constant `LevelAll`. -/
def LevelAll : String := "ALL"

/-- The state of one standard-library `log.Logger` object (the pointee of a
`*log.Logger`): output destination, line label, and flag bits. -/
structure StdLogger where
  out : Writer
  label : String
  flags : Nat
deriving DecidableEq, Repr

/-- The heap of `log.Logger` objects; a `*log.Logger` value is an index
into `objs`. `log.New` allocates at the end. -/
structure Heap where
  objs : List StdLogger
deriving DecidableEq, Repr

/-- Allocation by `log.New(out, label, flags)`: returns the grown heap and
the fresh pointer. -/
def Heap.alloc (h : Heap) (o : StdLogger) : Heap × Nat :=
  (⟨h.objs ++ [o]⟩, h.objs.length)

/-- Dereference a `*log.Logger`. -/
def Heap.get (h : Heap) (p : Nat) : Option StdLogger :=
  h.objs.get? p

/-- Go `(*log.Logger).SetOutput(w)`: in-place mutation of the pointee's
output destination. -/
def Heap.setOut (h : Heap) (p : Nat) (w : Writer) : Heap :=
  match h.objs.get? p with
  | some o => ⟨h.objs.set p { o with out := w }⟩
  | none => h

/-- The `Logger` struct: seven `*log.Logger` fields plus the filter level
(`LogLevel`, a Go `uint`). The mutex guards only `level` and is elided. -/
structure Logger where
  logCritical : Nat
  logError : Nat
  logWarning : Nat
  logNotice : Nat
  logInfo : Nat
  logDebug : Nat
  logTrace : Nat
  level : Nat
deriving DecidableEq, Repr

/-- The `Config` struct: output writer, label, flags. -/
structure Config where
  Out : Writer
  Label : String
  Flags : Nat
deriving DecidableEq, Repr

/-- A program state: the heap of `log.Logger` objects, the `Logger`
struct, and the trace of emission events `(sink pointer, message)`. -/
structure State where
  heap : Heap
  logger : Logger
  events : List (Nat × String)
deriving DecidableEq, Repr

/-- Go `(*log.Logger).Print` / `Printf`: append one line-write event for the
given sink pointer. Formatting of the line is external. -/
def State.print (s : State) (p : Nat) (msg : String) : State :=
  { s with events := s.events ++ [(p, msg)] }

/-- Go `fmt.Sprintf("%-9s", name)`: left-justify and pad with spaces to
minimum width 9. -/
def padLabel (name : String) : String :=
  name ++ String.mk (List.replicate (9 - name.length) ' ')

/-- The functional options accepted by `New` (each a `func(*Logger)`
closure from the package). -/
inductive Opt where
  | SetDefault : Config → Opt
  | SetErrorDefault : Config → Opt
  | SetAllDefault : Config → Opt
  | SetOutput : Nat → Writer → Opt
  | SetDebug : Config → Opt
  | SetTrace : Config → Opt
  | SetCritical : Config → Opt
  | SetError : Config → Opt
  | SetWarning : Config → Opt
  | SetNotice : Config → Opt
  | SetInfo : Config → Opt
deriving DecidableEq, Repr

/-- Go `(*Logger).SetOutput(level, w)`: switch over the level, setting the
output of the addressed sink; `All` sets all seven. Also the body of the
package-level `SetOutput` option. An unmatched level is a no-op. -/
def State.SetOutput (s : State) (level : Nat) (w : Writer) : State :=
  if level = SimplexLog.Info then { s with heap := s.heap.setOut s.logger.logInfo w }
  else if level = SimplexLog.Notice then { s with heap := s.heap.setOut s.logger.logNotice w }
  else if level = SimplexLog.Warning then { s with heap := s.heap.setOut s.logger.logWarning w }
  else if level = SimplexLog.Debug then { s with heap := s.heap.setOut s.logger.logDebug w }
  else if level = SimplexLog.Trace then { s with heap := s.heap.setOut s.logger.logTrace w }
  else if level = SimplexLog.Error then { s with heap := s.heap.setOut s.logger.logError w }
  else if level = SimplexLog.Critical then { s with heap := s.heap.setOut s.logger.logCritical w }
  else if level = SimplexLog.All then
    let s := { s with heap := s.heap.setOut s.logger.logInfo w }
    let s := { s with heap := s.heap.setOut s.logger.logNotice w }
    let s := { s with heap := s.heap.setOut s.logger.logWarning w }
    let s := { s with heap := s.heap.setOut s.logger.logDebug w }
    let s := { s with heap := s.heap.setOut s.logger.logTrace w }
    let s := { s with heap := s.heap.setOut s.logger.logError w }
    { s with heap := s.heap.setOut s.logger.logCritical w }
  else s

/-- Apply one functional option, as the corresponding closure body from the
source. `SetDefault` allocates one logger and assigns the same pointer to
the five fields (`l.logInfo = l.logWarning` etc. copies the pointer). -/
def applyOpt (o : Opt) (s : State) : State :=
  match o with
  | .SetDefault c =>
      let (h, p) := s.heap.alloc ⟨c.Out, c.Label, c.Flags⟩
      { s with heap := h, logger := { s.logger with logWarning := p, logInfo := p, logNotice := p, logDebug := p, logTrace := p } }
  | .SetErrorDefault c =>
      let (h, p) := s.heap.alloc ⟨c.Out, c.Label, c.Flags⟩
      { s with heap := h, logger := { s.logger with logError := p, logCritical := p } }
  | .SetAllDefault c =>
      let (h, p) := s.heap.alloc ⟨c.Out, c.Label, c.Flags⟩
      { s with heap := h, logger := { s.logger with logWarning := p, logInfo := p, logNotice := p, logDebug := p, logTrace := p, logError := p, logCritical := p } }
  | .SetOutput level w => s.SetOutput level w
  | .SetDebug c =>
      let (h, p) := s.heap.alloc ⟨c.Out, c.Label, c.Flags⟩
      { s with heap := h, logger := { s.logger with logDebug := p } }
  | .SetTrace c =>
      let (h, p) := s.heap.alloc ⟨c.Out, c.Label, c.Flags⟩
      { s with heap := h, logger := { s.logger with logTrace := p } }
  | .SetCritical c =>
      let (h, p) := s.heap.alloc ⟨c.Out, c.Label, c.Flags⟩
      { s with heap := h, logger := { s.logger with logCritical := p } }
  | .SetError c =>
      let (h, p) := s.heap.alloc ⟨c.Out, c.Label, c.Flags⟩
      { s with heap := h, logger := { s.logger with logError := p } }
  | .SetWarning c =>
      let (h, p) := s.heap.alloc ⟨c.Out, c.Label, c.Flags⟩
      { s with heap := h, logger := { s.logger with logWarning := p } }
  | .SetNotice c =>
      let (h, p) := s.heap.alloc ⟨c.Out, c.Label, c.Flags⟩
      { s with heap := h, logger := { s.logger with logNotice := p } }
  | .SetInfo c =>
      let (h, p) := s.heap.alloc ⟨c.Out, c.Label, c.Flags⟩
      { s with heap := h, logger := { s.logger with logInfo := p } }

/-- Go `New(configurations...)`: build the default logger (seven fresh
`log.New` allocations, `level = Info`), then apply the options in order. -/
def New (opts : List Opt) : State :=
  let h : Heap := ⟨[]⟩
  let (h, pCrit) := h.alloc ⟨.stderr, padLabel LevelCritical, DefaultLogFlags⟩
  let (h, pErr) := h.alloc ⟨.stderr, padLabel LevelError, DefaultLogFlags⟩
  let (h, pWarn) := h.alloc ⟨.stdout, padLabel LevelWarning, DefaultLogFlags⟩
  let (h, pNot) := h.alloc ⟨.stdout, padLabel LevelNotice, DefaultLogFlags⟩
  let (h, pInfo) := h.alloc ⟨.stdout, padLabel LevelInfo, DefaultLogFlags⟩
  let (h, pDbg) := h.alloc ⟨.stdout, padLabel LevelDebug, DefaultLogFlags⟩
  let (h, pTrc) := h.alloc ⟨.stdout, padLabel LevelTrace, DefaultLogFlags⟩
  let st : State :=
    ⟨h, ⟨pCrit, pErr, pWarn, pNot, pInfo, pDbg, pTrc, SimplexLog.Info⟩, []⟩
  opts.foldl (fun s o => applyOpt o s) st

/-- Go `strings.ToUpper` (the level names and inputs of interest are ASCII;
`Char.toUpper` uppercases exactly the ASCII letters). -/
def goToUpper (s : String) : String :=
  String.mk (s.data.map Char.toUpper)

/-- White-space test used by `strings.TrimSpace` (ASCII fragment of
`unicode.IsSpace`). -/
def goIsSpace (c : Char) : Bool :=
  c = ' ' || c = '\t' || c = '\n' || c = '\r' || c = Char.ofNat 11 || c = Char.ofNat 12

/-- Go `strings.TrimSpace`: drop white space from both ends. -/
def goTrimSpace (s : String) : String :=
  String.mk (((s.data.dropWhile goIsSpace).reverse.dropWhile goIsSpace).reverse)

/-- Go `(*Logger).switchTo(level)`: reject values outside `Critical..All`
(`level` is a `uint`, so only the upper bound can fire), otherwise store. -/
def State.switchTo (s : State) (level : Nat) : State :=
  if level < SimplexLog.Critical ∨ level > SimplexLog.All then s
  else { s with logger := { s.logger with level := level } }

/-- Go `(*Logger).switchToLevel(name)`: canonicalise with
`strings.TrimSpace` and `strings.ToUpper`, then switch over the eight
level names; an unmatched name falls through with no state change. -/
def State.switchToLevel (s : State) (name : String) : State :=
  let level := goToUpper (goTrimSpace name)
  if level = LevelCritical then { s with logger := { s.logger with level := SimplexLog.Critical } }
  else if level = LevelError then { s with logger := { s.logger with level := SimplexLog.Error } }
  else if level = LevelWarning then { s with logger := { s.logger with level := SimplexLog.Warning } }
  else if level = LevelNotice then { s with logger := { s.logger with level := SimplexLog.Notice } }
  else if level = LevelInfo then { s with logger := { s.logger with level := SimplexLog.Info } }
  else if level = LevelDebug then { s with logger := { s.logger with level := SimplexLog.Debug } }
  else if level = LevelTrace then { s with logger := { s.logger with level := SimplexLog.Trace } }
  else if level = LevelAll then { s with logger := { s.logger with level := SimplexLog.All } }
  else s

/-- Dynamic type of the `interface\x7b\x7d` argument of `SwitchTo`. -/
inductive SwitchArg where
  | str : String → SwitchArg
  | intVal : Int → SwitchArg
  | logLevelVal : Nat → SwitchArg
  | other : SwitchArg
deriving DecidableEq, Repr

/-- Go `(*Logger).SwitchTo(level interface\x7b\x7d)`: a type switch. The
`case int, LogLevel` branch keeps the interface type for `lvl`, and the
type assertion `lvl.(LogLevel)` panics when the dynamic type is `int`
(Go spec: a multi-type case does not narrow, and a failed single-value
type assertion panics). `none` models that panic; dynamic types matching
no case fall through silently. -/
def State.SwitchTo (s : State) (level : SwitchArg) : Option State :=
  match level with
  | .str lvl => some (s.switchToLevel lvl)
  | .intVal _ => none
  | .logLevelVal lvl => some (s.switchTo lvl)
  | .other => some s

/-- Go `(*Logger).Level()`: read the current filter level (mutex elided). -/
def State.Level (s : State) : Nat :=
  s.logger.level

/-- The switch body of `(*Logger).LevelName()` as a function of the stored
level value. -/
def levelNameOf (level : Nat) : String :=
  if level = SimplexLog.Critical then LevelCritical
  else if level = SimplexLog.Error then LevelError
  else if level = SimplexLog.Warning then LevelWarning
  else if level = SimplexLog.Notice then LevelNotice
  else if level = SimplexLog.Info then LevelInfo
  else if level = SimplexLog.Debug then LevelDebug
  else if level = SimplexLog.Trace then LevelTrace
  else if level = SimplexLog.All then LevelAll
  else "?"

/-- Go `(*Logger).LevelName()`: name of the current filter level, `"?"` on
the default branch. -/
def State.LevelName (s : State) : String :=
  levelNameOf s.logger.level

/-- Outcome of a call: normal return, `os.Exit`, or a panic. -/
inductive Outcome where
  | normal : Outcome
  | exited : Nat → Outcome
  | panicked : Outcome
deriving DecidableEq, Repr

/-- Go `(*log.Logger).Fatal` / `Fatalf`: print the line, then `os.Exit(1)`. -/
def logFatal (s : State) (p : Nat) (msg : String) : State × Outcome :=
  (s.print p msg, .exited 1)

/-- Go `(*log.Logger).Panic` / `Panicf`: print the line, then `panic(...)`. -/
def logPanic (s : State) (p : Nat) (msg : String) : State × Outcome :=
  (s.print p msg, .panicked)

/-- Go `(*Logger).Infof`: gated print to the Info logger. -/
def State.Infof (s : State) (msg : String) : State :=
  if s.Level ≥ SimplexLog.Info then s.print s.logger.logInfo msg else s

/-- Go `(*Logger).Noticef`: gated print to the Notice logger. -/
def State.Noticef (s : State) (msg : String) : State :=
  if s.Level ≥ SimplexLog.Notice then s.print s.logger.logNotice msg else s

/-- Go `(*Logger).Warningf`: gated print to the Warning logger. -/
def State.Warningf (s : State) (msg : String) : State :=
  if s.Level ≥ SimplexLog.Warning then s.print s.logger.logWarning msg else s

/-- Go `(*Logger).Errorf`: gated print to the Error logger. -/
def State.Errorf (s : State) (msg : String) : State :=
  if s.Level ≥ SimplexLog.Error then s.print s.logger.logError msg else s

/-- Go `(*Logger).Criticalf`: gated print to the Critical logger. -/
def State.Criticalf (s : State) (msg : String) : State :=
  if s.Level ≥ SimplexLog.Critical then s.print s.logger.logCritical msg else s

/-- Go `(*Logger).Debugf`: gated print to the Debug logger. -/
def State.Debugf (s : State) (msg : String) : State :=
  if s.Level ≥ SimplexLog.Debug then s.print s.logger.logDebug msg else s

/-- Go `(*Logger).Tracef`: gated print to the Trace logger. -/
def State.Tracef (s : State) (msg : String) : State :=
  if s.Level ≥ SimplexLog.Trace then s.print s.logger.logTrace msg else s

/-- Go `(*Logger).Fatalf`: unconditional `l.logCritical.Fatalf`. -/
def State.Fatalf (s : State) (msg : String) : State × Outcome :=
  logFatal s s.logger.logCritical msg

/-- Go `(*Logger).Panicf`: unconditional `l.logCritical.Panicf`. -/
def State.Panicf (s : State) (msg : String) : State × Outcome :=
  logPanic s s.logger.logCritical msg

/-- Go `(*Logger).Info`: gated print to the Info logger. -/
def State.Info (s : State) (msg : String) : State :=
  if s.Level ≥ SimplexLog.Info then s.print s.logger.logInfo msg else s

/-- Go `(*Logger).Notice`: gated print to the Notice logger. -/
def State.Notice (s : State) (msg : String) : State :=
  if s.Level ≥ SimplexLog.Notice then s.print s.logger.logNotice msg else s

/-- Go `(*Logger).Warning`: gated print to the Warning logger. -/
def State.Warning (s : State) (msg : String) : State :=
  if s.Level ≥ SimplexLog.Warning then s.print s.logger.logWarning msg else s

/-- Go `(*Logger).Error`: gated print to the Error logger. -/
def State.Error (s : State) (msg : String) : State :=
  if s.Level ≥ SimplexLog.Error then s.print s.logger.logError msg else s

/-- Go `(*Logger).Critical`: gated print to the Critical logger. -/
def State.Critical (s : State) (msg : String) : State :=
  if s.Level ≥ SimplexLog.Critical then s.print s.logger.logCritical msg else s

/-- Go `(*Logger).Debug`: gated print to the Debug logger. -/
def State.Debug (s : State) (msg : String) : State :=
  if s.Level ≥ SimplexLog.Debug then s.print s.logger.logDebug msg else s

/-- Go `(*Logger).Trace`: gated print to the Trace logger. -/
def State.Trace (s : State) (msg : String) : State :=
  if s.Level ≥ SimplexLog.Trace then s.print s.logger.logTrace msg else s

/-- Go `(*Logger).Fatal`: unconditional `l.logCritical.Fatal`. -/
def State.Fatal (s : State) (msg : String) : State × Outcome :=
  logFatal s s.logger.logCritical msg

/-- Go `(*Logger).Panic`: unconditional `l.logCritical.Panic`. -/
def State.Panic (s : State) (msg : String) : State × Outcome :=
  logPanic s s.logger.logCritical msg

/-- Go `(*Logger).InfoLogger()`: `return l.logInfo`. -/
def Logger.InfoLogger (l : Logger) : Nat :=
  l.logInfo

/-- Go `(*Logger).NoticeLogger()`: the source returns `l.logCritical`. -/
def Logger.NoticeLogger (l : Logger) : Nat :=
  l.logCritical

/-- Go `(*Logger).WarningLogger()`: `return l.logWarning`. -/
def Logger.WarningLogger (l : Logger) : Nat :=
  l.logWarning

/-- Go `(*Logger).ErrorLogger()`: `return l.logError`. -/
def Logger.ErrorLogger (l : Logger) : Nat :=
  l.logError

/-- Go `(*Logger).CriticalLogger()`: `return l.logCritical`. -/
def Logger.CriticalLogger (l : Logger) : Nat :=
  l.logCritical

/-- Go `(*Logger).DebugLogger()`: `return l.logDebug`. -/
def Logger.DebugLogger (l : Logger) : Nat :=
  l.logDebug

/-- Go `(*Logger).TraceLogger()`: `return l.logTrace`. -/
def Logger.TraceLogger (l : Logger) : Nat :=
  l.logTrace

/-- Go `(*Logger).SetLevel(level)` from the older variant of the source
(`src/unnamed/part_001`): stores the value unconditionally, with no range
check. -/
def State.SetLevel (s : State) (level : Nat) : State :=
  { s with logger := { s.logger with level := level } }

/-- Destination currently configured for the sink at pointer `p`. -/
def sinkOut (s : State) (p : Nat) : Option Writer :=
  (s.heap.get p).map (fun o => o.out)

/-- Label currently configured for the sink at pointer `p`. -/
def sinkLabel (s : State) (p : Nat) : Option String :=
  (s.heap.get p).map (fun o => o.label)

/-- Flags currently configured for the sink at pointer `p`. -/
def sinkFlags (s : State) (p : Nat) : Option Nat :=
  (s.heap.get p).map (fun o => o.flags)

/-- One line-write event: `s'` is `s` with exactly the event `(p, msg)`
appended. -/
def WritesTo (s s' : State) (p : Nat) (msg : String) : Prop :=
  s'.events = s.events ++ [(p, msg)]

/-- States reachable through the public API of the current variant of the
package: a construction via `New` followed by any sequence of level
switches, output reconfigurations, post-construction option applications
and line writes (the gated emissions and the `Fatal`/`Panic` writes all
factor through `State.print`). -/
inductive Reachable : State → Prop where
  | init : ∀ opts, Reachable (New opts)
  | swTo : ∀ s lvl, Reachable s → Reachable (s.switchTo lvl)
  | swToLevel : ∀ s name, Reachable s → Reachable (s.switchToLevel name)
  | swDyn : ∀ s a s', Reachable s → s.SwitchTo a = some s' → Reachable s'
  | setOut : ∀ s lvl w, Reachable s → Reachable (s.SetOutput lvl w)
  | opt : ∀ s o, Reachable s → Reachable (applyOpt o s)
  | write : ∀ s p m, Reachable s → Reachable (s.print p m)

/-- Scenario: a logger built with `New(SetDefault(...))`, the group default
writing to destination `handle 0`. -/
def c3Base : State :=
  New [Opt.SetDefault ⟨Writer.handle 0, "APP", DefaultLogFlags⟩]

/-- Scenario continuation: only the Warning sink's destination is then
changed to `handle 1` via `SetOutput`. -/
def c3After : State :=
  c3Base.SetOutput SimplexLog.Warning (Writer.handle 1)

/-- A gated call of the shape `if c then print p m else skip` writes the
event `(p, m)` exactly when the gate condition holds. -/
theorem writesTo_ite (s : State) (c : Prop) [Decidable c] (p : Nat) (m : String) :
    WritesTo s (if c then s.print p m else s) p m ↔ c := by
  constructor
  · intro h
    by_contra hc
    rw [if_neg hc] at h
    unfold WritesTo at h
    simp at h
  · intro hc
    rw [if_pos hc]
    rfl

/-- C1: with the fixed numeric severity order Critical(0) < Error(1) <
Warning(2) < Notice(3) < Info(4) < Debug(5) < Trace(6) < All(7), every
gated emission call at severity S (both the `Printf`-style and the
`Print`-style entry point) writes to level S's sink if and only if the
current filter level F satisfies F ≥ S; filter All therefore admits every
severity and filter Critical only Critical. -/
theorem gated_emission_iff (s : State) (m : String) :
    (SimplexLog.Critical < SimplexLog.Error ∧ SimplexLog.Error < SimplexLog.Warning ∧
     SimplexLog.Warning < SimplexLog.Notice ∧ SimplexLog.Notice < SimplexLog.Info ∧
     SimplexLog.Info < SimplexLog.Debug ∧ SimplexLog.Debug < SimplexLog.Trace ∧
     SimplexLog.Trace < SimplexLog.All) ∧
    (WritesTo s (s.Criticalf m) s.logger.logCritical m ↔ s.Level ≥ SimplexLog.Critical) ∧
    (WritesTo s (s.Errorf m) s.logger.logError m ↔ s.Level ≥ SimplexLog.Error) ∧
    (WritesTo s (s.Warningf m) s.logger.logWarning m ↔ s.Level ≥ SimplexLog.Warning) ∧
    (WritesTo s (s.Noticef m) s.logger.logNotice m ↔ s.Level ≥ SimplexLog.Notice) ∧
    (WritesTo s (s.Infof m) s.logger.logInfo m ↔ s.Level ≥ SimplexLog.Info) ∧
    (WritesTo s (s.Debugf m) s.logger.logDebug m ↔ s.Level ≥ SimplexLog.Debug) ∧
    (WritesTo s (s.Tracef m) s.logger.logTrace m ↔ s.Level ≥ SimplexLog.Trace) ∧
    (WritesTo s (s.Critical m) s.logger.logCritical m ↔ s.Level ≥ SimplexLog.Critical) ∧
    (WritesTo s (s.Error m) s.logger.logError m ↔ s.Level ≥ SimplexLog.Error) ∧
    (WritesTo s (s.Warning m) s.logger.logWarning m ↔ s.Level ≥ SimplexLog.Warning) ∧
    (WritesTo s (s.Notice m) s.logger.logNotice m ↔ s.Level ≥ SimplexLog.Notice) ∧
    (WritesTo s (s.Info m) s.logger.logInfo m ↔ s.Level ≥ SimplexLog.Info) ∧
    (WritesTo s (s.Debug m) s.logger.logDebug m ↔ s.Level ≥ SimplexLog.Debug) ∧
    (WritesTo s (s.Trace m) s.logger.logTrace m ↔ s.Level ≥ SimplexLog.Trace) :=
  ⟨by decide,
   writesTo_ite s _ _ m, writesTo_ite s _ _ m, writesTo_ite s _ _ m,
   writesTo_ite s _ _ m, writesTo_ite s _ _ m, writesTo_ite s _ _ m,
   writesTo_ite s _ _ m, writesTo_ite s _ _ m, writesTo_ite s _ _ m,
   writesTo_ite s _ _ m, writesTo_ite s _ _ m, writesTo_ite s _ _ m,
   writesTo_ite s _ _ m, writesTo_ite s _ _ m⟩

/-- C2: six of the seven bypass accessors return the sink field of their
own level, for every logger state and hence regardless of the filter
level; `NoticeLogger`, however, returns the Critical sink, and on the
default logger that sink differs from the Notice sink, so for the Notice
level the claim fails on the code. -/
theorem sink_accessors (l : Logger) :
    (l.InfoLogger = l.logInfo ∧ l.WarningLogger = l.logWarning ∧
     l.ErrorLogger = l.logError ∧ l.CriticalLogger = l.logCritical ∧
     l.DebugLogger = l.logDebug ∧ l.TraceLogger = l.logTrace ∧
     l.NoticeLogger = l.logCritical) ∧
    (New []).logger.NoticeLogger = (New []).logger.logCritical ∧
    (New []).logger.NoticeLogger ≠ (New []).logger.logNotice :=
  ⟨⟨rfl, rfl, rfl, rfl, rfl, rfl, rfl⟩, rfl, by decide⟩

/-- C5: `switchToLevel` matches after trimming surrounding white space and
case-insensitively: the lower-case, upper-case and space-padded spellings
of each of the seven level names and of ALL all set the corresponding
filter level. -/
theorem switchToLevel_case_insensitive :
    ((New []).switchToLevel "critical").Level = SimplexLog.Critical ∧
    ((New []).switchToLevel "CRITICAL").Level = SimplexLog.Critical ∧
    ((New []).switchToLevel "  Critical  ").Level = SimplexLog.Critical ∧
    ((New []).switchToLevel "error").Level = SimplexLog.Error ∧
    ((New []).switchToLevel "ERROR").Level = SimplexLog.Error ∧
    ((New []).switchToLevel "  Error  ").Level = SimplexLog.Error ∧
    ((New []).switchToLevel "warning").Level = SimplexLog.Warning ∧
    ((New []).switchToLevel "WARNING").Level = SimplexLog.Warning ∧
    ((New []).switchToLevel "  Warning  ").Level = SimplexLog.Warning ∧
    ((New []).switchToLevel "notice").Level = SimplexLog.Notice ∧
    ((New []).switchToLevel "NOTICE").Level = SimplexLog.Notice ∧
    ((New []).switchToLevel "  Notice  ").Level = SimplexLog.Notice ∧
    ((New []).switchToLevel "info").Level = SimplexLog.Info ∧
    ((New []).switchToLevel "INFO").Level = SimplexLog.Info ∧
    ((New []).switchToLevel "  Info  ").Level = SimplexLog.Info ∧
    ((New []).switchToLevel "debug").Level = SimplexLog.Debug ∧
    ((New []).switchToLevel "DEBUG").Level = SimplexLog.Debug ∧
    ((New []).switchToLevel "  Debug  ").Level = SimplexLog.Debug ∧
    ((New []).switchToLevel "trace").Level = SimplexLog.Trace ∧
    ((New []).switchToLevel "TRACE").Level = SimplexLog.Trace ∧
    ((New []).switchToLevel "  Trace  ").Level = SimplexLog.Trace ∧
    ((New []).switchToLevel "all").Level = SimplexLog.All ∧
    ((New []).switchToLevel "ALL").Level = SimplexLog.All ∧
    ((New []).switchToLevel "  All  ").Level = SimplexLog.All := by
  decide

/-- C8: the four fatal-class calls forward the message to the Critical
sink for every state, hence for every filter level, without consulting the
admission gate; the returned state already contains the written line, and
termination (`os.Exit(1)`) or the panic is what follows it. -/
theorem fatal_panic_unconditional (s : State) (m : String) :
    (WritesTo s (s.Fatalf m).1 s.logger.logCritical m ∧ (s.Fatalf m).2 = Outcome.exited 1) ∧
    (WritesTo s (s.Fatal m).1 s.logger.logCritical m ∧ (s.Fatal m).2 = Outcome.exited 1) ∧
    (WritesTo s (s.Panicf m).1 s.logger.logCritical m ∧ (s.Panicf m).2 = Outcome.panicked) ∧
    (WritesTo s (s.Panic m).1 s.logger.logCritical m ∧ (s.Panic m).2 = Outcome.panicked) :=
  ⟨⟨rfl, rfl⟩, ⟨rfl, rfl⟩, ⟨rfl, rfl⟩, ⟨rfl, rfl⟩⟩

/-- C9: `SwitchTo` with an argument of dynamic type `int` panics on the
type assertion before any mutation (modelled as `none`), for the concrete
call `SwitchTo(3)` in particular; arguments of dynamic type `string` and
`LogLevel` are dispatched to `switchToLevel` and `switchTo` without
panicking, and any other dynamic type is a silent no-op. -/
theorem switchTo_dynamic_dispatch (s : State) (n : Int) (str : String) (lvl : Nat) :
    s.SwitchTo (.intVal n) = none ∧
    s.SwitchTo (.intVal 3) = none ∧
    s.SwitchTo (.str str) = some (s.switchToLevel str) ∧
    s.SwitchTo (.logLevelVal lvl) = some (s.switchTo lvl) ∧
    s.SwitchTo .other = some s :=
  ⟨rfl, rfl, rfl, rfl, rfl⟩

/-- C4: a name whose trimmed, upper-cased form matches none of the seven
level names nor ALL leaves the whole logger state — in particular the
filter level — unchanged, and no error is signalled (the function returns
nothing). -/
theorem unknown_name_noop (s : State) (name : String)
    (h : goToUpper (goTrimSpace name) ∉
      [LevelCritical, LevelError, LevelWarning, LevelNotice, LevelInfo, LevelDebug, LevelTrace, LevelAll]) :
    s.switchToLevel name = s ∧ (s.switchToLevel name).Level = s.Level := by
  simp only [List.mem_cons, List.not_mem_nil, or_false, not_or] at h
  obtain ⟨h1, h2, h3, h4, h5, h6, h7, h8⟩ := h
  have e : s.switchToLevel name = s := by
    unfold State.switchToLevel
    simp only [if_neg h1, if_neg h2, if_neg h3, if_neg h4, if_neg h5, if_neg h6, if_neg h7, if_neg h8]
  exact ⟨e, by rw [e]⟩

/-- C4 witness: with the filter at Warning, `switchToLevel "bogus"` is a
no-op. -/
theorem unknown_name_noop_witness :
    State.switchToLevel (State.switchTo (New []) SimplexLog.Warning) "bogus" =
      State.switchTo (New []) SimplexLog.Warning ∧
    (State.switchToLevel (State.switchTo (New []) SimplexLog.Warning) "bogus").Level =
      (State.switchTo (New []) SimplexLog.Warning).Level :=
  unknown_name_noop (State.switchTo (New []) SimplexLog.Warning) "bogus" (by decide)

/-- C6 counterexample: through the raw-value path of the older source
variant (`SetLevel`, `src/unnamed/part_001`), the out-of-range value 99 is
stored, mutating the filter level away from its prior value Info — the
claim's "the filter level is not mutated" fails there. -/
theorem out_of_range_counterexample :
    SimplexLog.All < 99 ∧ (New []).Level = SimplexLog.Info ∧
    ((New []).SetLevel 99).Level = 99 ∧ (99 : Nat) ≠ SimplexLog.Info := by
  decide

/-- C6 amended: in the current source variant the raw-value path is
`switchTo` (reached from `SwitchTo`), and there an out-of-range numeric
level (> All) is silently ignored with no mutation and no error; the older
variant's `SetLevel` instead stores the value unchecked. -/
theorem switchTo_out_of_range_noop (s : State) (lvl : Nat) (h : SimplexLog.All < lvl) :
    s.switchTo lvl = s ∧ s.SwitchTo (.logLevelVal lvl) = some s := by
  have hc : lvl < SimplexLog.Critical ∨ lvl > SimplexLog.All := Or.inr h
  have e : s.switchTo lvl = s := by
    unfold State.switchTo
    rw [if_pos hc]
  refine ⟨e, ?_⟩
  show some (s.switchTo lvl) = some s
  rw [e]

/-- C6 amended witness: the value 99 is out of range and ignored. -/
theorem switchTo_out_of_range_noop_witness :
    State.switchTo (New []) 99 = New [] ∧
    State.SwitchTo (New []) (.logLevelVal 99) = some (New []) :=
  switchTo_out_of_range_noop (New []) 99 (by decide)

/-- C7: `New` with no options yields filter level Info; Critical and Error
sinks write to standard error and the other five to standard output; every
sink's label is the upper-case level name left-justified and padded to
exactly 9 characters; and every sink carries the date + time +
microseconds flag set. -/
theorem new_defaults :
    (New []).Level = SimplexLog.Info ∧
    sinkOut (New []) (New []).logger.logCritical = some Writer.stderr ∧
    sinkOut (New []) (New []).logger.logError = some Writer.stderr ∧
    sinkOut (New []) (New []).logger.logWarning = some Writer.stdout ∧
    sinkOut (New []) (New []).logger.logNotice = some Writer.stdout ∧
    sinkOut (New []) (New []).logger.logInfo = some Writer.stdout ∧
    sinkOut (New []) (New []).logger.logDebug = some Writer.stdout ∧
    sinkOut (New []) (New []).logger.logTrace = some Writer.stdout ∧
    sinkLabel (New []) (New []).logger.logCritical = some "CRITICAL " ∧
    sinkLabel (New []) (New []).logger.logError = some "ERROR    " ∧
    sinkLabel (New []) (New []).logger.logWarning = some "WARNING  " ∧
    sinkLabel (New []) (New []).logger.logNotice = some "NOTICE   " ∧
    sinkLabel (New []) (New []).logger.logInfo = some "INFO     " ∧
    sinkLabel (New []) (New []).logger.logDebug = some "DEBUG    " ∧
    sinkLabel (New []) (New []).logger.logTrace = some "TRACE    " ∧
    (sinkLabel (New []) (New []).logger.logCritical).map String.length = some 9 ∧
    (sinkLabel (New []) (New []).logger.logError).map String.length = some 9 ∧
    (sinkLabel (New []) (New []).logger.logWarning).map String.length = some 9 ∧
    (sinkLabel (New []) (New []).logger.logNotice).map String.length = some 9 ∧
    (sinkLabel (New []) (New []).logger.logInfo).map String.length = some 9 ∧
    (sinkLabel (New []) (New []).logger.logDebug).map String.length = some 9 ∧
    (sinkLabel (New []) (New []).logger.logTrace).map String.length = some 9 ∧
    sinkFlags (New []) (New []).logger.logCritical = some (Ldate ||| Ltime ||| Lmicroseconds) ∧
    sinkFlags (New []) (New []).logger.logError = some (Ldate ||| Ltime ||| Lmicroseconds) ∧
    sinkFlags (New []) (New []).logger.logWarning = some (Ldate ||| Ltime ||| Lmicroseconds) ∧
    sinkFlags (New []) (New []).logger.logNotice = some (Ldate ||| Ltime ||| Lmicroseconds) ∧
    sinkFlags (New []) (New []).logger.logInfo = some (Ldate ||| Ltime ||| Lmicroseconds) ∧
    sinkFlags (New []) (New []).logger.logDebug = some (Ldate ||| Ltime ||| Lmicroseconds) ∧
    sinkFlags (New []) (New []).logger.logTrace = some (Ldate ||| Ltime ||| Lmicroseconds) := by
  decide

/-- Looking up the freshly allocated object at the end of a list. -/
theorem list_getq_concat_length {α : Type} (l : List α) (o : α) :
    (l ++ [o]).get? l.length = some o := by
  induction l with
  | nil => rfl
  | cons a t ih => simp [ih]

/-- Looking up the freshly allocated slot after overwriting it. -/
theorem list_getq_set_length {α : Type} (l : List α) (o x : α) :
    ((l ++ [o]).set l.length x).get? l.length = some x := by
  induction l with
  | nil => rfl
  | cons a t ih => simp [ih]

/-- Allocate at the end of the heap, mutate that object's destination in
place, read it back. -/
theorem heap_alloc_setOut_get (h : Heap) (o : StdLogger) (w : Writer) :
    ((⟨h.objs ++ [o]⟩ : Heap).setOut h.objs.length w).get h.objs.length =
      some { o with out := w } := by
  unfold Heap.setOut Heap.get
  rw [list_getq_concat_length]
  exact list_getq_set_length _ _ _

/-- C3 counterexample: build with `SetDefault` targeting destination
`handle 0`, then change only the Warning sink's destination to `handle 1`;
the Info level's destination reads back `handle 1`, not the unchanged
`handle 0` the claim requires. -/
theorem setOutput_warning_changes_info :
    sinkOut c3Base c3Base.logger.logInfo = some (Writer.handle 0) ∧
    sinkOut c3After c3After.logger.logInfo = some (Writer.handle 1) ∧
    Writer.handle 1 ≠ Writer.handle 0 := by
  decide

/-- C3 amended: `SetDefault` assigns one single line-logger, not
independent copies, to the five levels Warning, Notice, Info, Debug and
Trace (the five pointer fields are equal); consequently changing only the
Warning sink's destination via `SetOutput(Warning, w)` also changes the
destination read through the Info sink (and, the pointers being equal,
through Notice, Debug and Trace as well). Error and Critical keep their
own sinks. -/
theorem setDefault_shares_one_sink (s : State) (c : Config) (w : Writer) :
    (applyOpt (.SetDefault c) s).logger.logInfo = (applyOpt (.SetDefault c) s).logger.logWarning ∧
    (applyOpt (.SetDefault c) s).logger.logNotice = (applyOpt (.SetDefault c) s).logger.logWarning ∧
    (applyOpt (.SetDefault c) s).logger.logDebug = (applyOpt (.SetDefault c) s).logger.logWarning ∧
    (applyOpt (.SetDefault c) s).logger.logTrace = (applyOpt (.SetDefault c) s).logger.logWarning ∧
    (applyOpt (.SetDefault c) s).logger.logError = s.logger.logError ∧
    (applyOpt (.SetDefault c) s).logger.logCritical = s.logger.logCritical ∧
    sinkOut ((applyOpt (.SetDefault c) s).SetOutput SimplexLog.Warning w)
        ((applyOpt (.SetDefault c) s).SetOutput SimplexLog.Warning w).logger.logInfo = some w := by
  refine ⟨rfl, rfl, rfl, rfl, rfl, rfl, ?_⟩
  have key : (((applyOpt (.SetDefault c) s).SetOutput SimplexLog.Warning w)).heap.get
      (((applyOpt (.SetDefault c) s).SetOutput SimplexLog.Warning w)).logger.logInfo =
      some { out := w, label := c.Label, flags := c.Flags } := by
    show ((⟨s.heap.objs ++ [⟨c.Out, c.Label, c.Flags⟩]⟩ : Heap).setOut s.heap.objs.length w).get
        s.heap.objs.length = some _
    exact heap_alloc_setOut_get s.heap ⟨c.Out, c.Label, c.Flags⟩ w
  unfold sinkOut
  rw [key]
  rfl

/-- Lemma: `SetOutput` only reconfigures sink objects; the `Logger` struct (all
seven pointers and the level) is untouched. -/
theorem setOutput_logger (s : State) (lvl : Nat) (w : Writer) :
    (s.SetOutput lvl w).logger = s.logger := by
  unfold State.SetOutput
  repeat' split
  all_goals rfl

/-- No functional option changes the stored filter level. -/
theorem applyOpt_level (o : Opt) (s : State) :
    (applyOpt o s).logger.level = s.logger.level := by
  cases o with
  | SetOutput lvl w =>
      show (State.SetOutput s lvl w).logger.level = s.logger.level
      rw [setOutput_logger]
  | _ => rfl

/-- Folding any option list over a state keeps the filter level. -/
theorem foldl_applyOpt_level (opts : List Opt) (s : State) :
    (opts.foldl (fun s o => applyOpt o s) s).logger.level = s.logger.level := by
  induction opts generalizing s with
  | nil => rfl
  | cons o t ih => rw [List.foldl_cons, ih, applyOpt_level]

/-- Constructed loggers start at filter level Info whatever the options. -/
theorem New_level (opts : List Opt) : (New opts).logger.level = SimplexLog.Info := by
  show (opts.foldl (fun s o => applyOpt o s) _).logger.level = SimplexLog.Info
  rw [foldl_applyOpt_level]

/-- Lemma: `switchTo` keeps the stored level within `Critical..All`. -/
theorem switchTo_le (s : State) (lvl : Nat) (h : s.logger.level ≤ 7) :
    (s.switchTo lvl).logger.level ≤ 7 := by
  unfold State.switchTo
  split
  · exact h
  · next hc =>
      show lvl ≤ 7
      simp only [SimplexLog.Critical, SimplexLog.All, not_or, not_lt] at hc
      omega

/-- Lemma: `switchToLevel` only ever stores one of the eight enumerated values. -/
theorem switchToLevel_le (s : State) (name : String) (h : s.logger.level ≤ 7) :
    (s.switchToLevel name).logger.level ≤ 7 := by
  simp only [State.switchToLevel]
  repeat' split
  all_goals first
    | exact h
    | exact (by decide : SimplexLog.Critical ≤ 7)
    | exact (by decide : SimplexLog.Error ≤ 7)
    | exact (by decide : SimplexLog.Warning ≤ 7)
    | exact (by decide : SimplexLog.Notice ≤ 7)
    | exact (by decide : SimplexLog.Info ≤ 7)
    | exact (by decide : SimplexLog.Debug ≤ 7)
    | exact (by decide : SimplexLog.Trace ≤ 7)
    | exact (by decide : SimplexLog.All ≤ 7)

/-- The `LevelName` switch hits a named branch for every value in
`Critical..All`. -/
theorem levelNameOf_ne (n : Nat) (h : n ≤ 7) : levelNameOf n ≠ "?" := by
  interval_cases n <;> decide

/-- C10: every state reachable through the public API keeps the filter
level inside the closed range Critical(0)..All(7); hence `Level()` is
always in range and `LevelName()` never falls through to `"?"`. -/
theorem level_invariant (s : State) (h : Reachable s) :
    SimplexLog.Critical ≤ s.Level ∧ s.Level ≤ SimplexLog.All ∧ s.LevelName ≠ "?" := by
  have key : s.logger.level ≤ 7 := by
    induction h with
    | init opts =>
        rw [New_level]
        decide
    | swTo s lvl hr ih => exact switchTo_le s lvl ih
    | swToLevel s name hr ih => exact switchToLevel_le s name ih
    | swDyn s a s' hr heq ih =>
        cases a with
        | str n =>
            rw [show s.SwitchTo (.str n) = some (s.switchToLevel n) from rfl] at heq
            cases heq
            exact switchToLevel_le s n ih
        | intVal n => cases heq
        | logLevelVal n =>
            rw [show s.SwitchTo (.logLevelVal n) = some (s.switchTo n) from rfl] at heq
            cases heq
            exact switchTo_le s n ih
        | other =>
            cases heq
            exact ih
    | setOut s lvl w hr ih =>
        rw [setOutput_logger]
        exact ih
    | opt s o hr ih =>
        rw [applyOpt_level]
        exact ih
    | write s p m hr ih => exact ih
  exact ⟨Nat.zero_le _, key, levelNameOf_ne s.logger.level key⟩

/-- C10 witness: the default-constructed logger satisfies the invariant. -/
theorem level_invariant_witness :
    SimplexLog.Critical ≤ (New []).Level ∧ (New []).Level ≤ SimplexLog.All ∧
      (New []).LevelName ≠ "?" :=
  level_invariant (New []) (Reachable.init [])

end SimplexLog
